import Mathlib

/-!
The OpenOCL mex bridge

A shallow embedding of `src/mex/ocl_mex_program.h`: the host-value
conversions `mxToString` and `mxToNumericVec`, the method dispatcher
`processTensor` and the entry point `mexFunction`, together with the two
globals `tensor_storage` and `num_tensors` they work on.

Conventions of the embedding

* A C `double` is a rational number. The cast `(double)idx` is the inclusion
  of the integers; the cast `(int)d` truncates toward zero and has no defined
  value outside the range of `int`. A C `int` is an integer of the 32-bit
  range: `num_tensors++` has no defined value at `INT_MAX`, and the cast of a
  `size_t` to `int` wraps modulo `2^32`.
* A host value (`mxArray`) is one of the kinds of value the call convention
  carries: a string (a char row vector), a char array of several rows, a
  real double array, a complex double array, or a callable reference.
* `mexErrMsgIdAndTxt` aborts the running call. The globals keep whatever
  value they had at that moment, so an aborted call is an `Outcome.error`
  carrying the message together with the state reached.
* `tensor_storage` is a `std::vector`: it is empty at load time and no
  statement of the file changes its size. `operator[]` is unchecked: reading
  or writing an index outside `0 .. size() - 1` has no defined behaviour
  (`Outcome.undefined`).
* The output array `plhs` is the record of the slots written during the call.
* The tensor library (`ocl/tensor/tensor.h`), the macro `mxAssert`
  (`matrix.h`) and the conversion that line 159 asks of
  `mxCreateDoubleScalar` on a matrix are not part of the file; they are
  parameters.
* `callCallbackFunction` is called by neither `processTensor` nor
  `mexFunction` and is not embedded.
-/

namespace OclMex

/-- The C type `double`. -/
abbrev Double := ℚ

/-- The largest `int`. -/
def INT_MAX : Int := 2147483647

/-- The smallest `int`. -/
def INT_MIN : Int := -2147483648

/-- The cast `(int)d` of a `double`: truncation toward zero; `none` when the
truncated value is not an `int` (the cast is then undefined). -/
def toInt (d : Double) : Option Int :=
  if INT_MIN ≤ Int.tdiv d.num d.den ∧ Int.tdiv d.num d.den ≤ INT_MAX then
    some (Int.tdiv d.num d.den)
  else none

/-- The cast `(int)n` of a `size_t`: the value modulo `2^32`, read as a signed
32-bit integer. -/
def sizeToInt (n : Nat) : Int :=
  if n % 4294967296 < 2147483648 then ((n % 4294967296 : Nat) : Int)
  else ((n % 4294967296 : Nat) : Int) - 4294967296

/-- A host value, `mxArray`: tagged by its host type. `str s` is a string, a
char array of one row; `chars rows data` is a char array of `rows` rows with
its characters `data` in column-major order. -/
inductive MxArray where
  | str (s : String)
  | chars (rows : Nat) (data : String)
  | real (data : List Double)
  | complex (re im : List Double)
  | fn (name : String)
  deriving DecidableEq, Repr

/-- What the file takes from outside: the type `ocl::Tensor` with its
constructor from a scalar, `uplus` and `ocl::full` of the tensor library, and
`hostMatrix`, the host value that line 159 requests for the materialised data
under the name `mxCreateDoubleScalar` (the host function of that name takes a
`double`; no function taking a matrix is declared in the file). -/
structure TensorLib (T : Type) where
  scalar : Double → T
  uplus : T → T
  full : T → List (List Double)
  hostMatrix : List (List Double) → MxArray

/-- The vector `tensor_storage`: its elements; `size()` is the length. -/
abbrev Storage (T : Type) := List T

/-- The read `tensor_storage[i]`; `none` when `i` is outside `0 .. size() - 1`. -/
def load {T : Type} (v : Storage T) (i : Int) : Option T :=
  if 0 ≤ i then v[i.toNat]? else none

/-- The assignment `tensor_storage[i] = t`; `none` when `i` is outside
`0 .. size() - 1`. The size of the vector does not change. -/
def store {T : Type} (v : Storage T) (i : Int) (t : T) : Option (Storage T) :=
  if 0 ≤ i ∧ i < (v.length : Int) then some (v.set i.toNat t) else none

/-- The two globals of the file. -/
structure State (T : Type) where
  tensor_storage : Storage T
  num_tensors : Int
  deriving DecidableEq, Repr

/-- The globals at load time: `tensor_storage` empty, `num_tensors = 0`. -/
def State.init {T : Type} : State T := ⟨[], 0⟩

/-- The output array `plhs`: the slots written, in the order of writing. -/
abbrev Outputs := List (Nat × MxArray)

/-- How a call ends: it returns, it is aborted by `mexErrMsgIdAndTxt`, or it has
no outcome that the program defines (undefined behaviour, or a C++ exception
that leaves the call). -/
inductive Outcome (T : Type) where
  | ok (st : State T) (plhs : Outputs)
  | error (msg : String) (st : State T)
  | undefined
  deriving DecidableEq, Repr

/-- How a conversion ends: with a value, aborted by `mexError`, or with a C++
exception thrown. -/
inductive Conv (α : Type) where
  | ok (a : α)
  | error (msg : String)
  | thrown
  deriving DecidableEq, Repr

/-- Host function `mxCreateDoubleScalar`: a 1x1 real double array. -/
def mxCreateDoubleScalar (d : Double) : MxArray := .real [d]

/-- Host function `mxGetScalar`: the real part of the first element, converted
to `double`; indeterminate (`none`) for an empty array and for a value that is
not a numeric or char array. -/
def mxGetScalar : MxArray → Option Double
  | .real (x :: _) => some x
  | .complex (x :: _) _ => some x
  | .str s =>
    match s.data with
    | c :: _ => some (c.toNat : ℚ)
    | [] => none
  | .chars _ data =>
    match data.data with
    | c :: _ => some (c.toNat : ℚ)
    | [] => none
  | _ => none

/-- The `std::string` built from a C buffer holding the characters `cs` and a
terminating NUL: the characters before the first NUL. -/
def cString (cs : List Char) : String := ⟨cs.takeWhile (fun c => c != Char.ofNat 0)⟩

/-- Conversion `mxToString`: `mexAssert(mxIsChar(in_arr), ...)`; then
`n_chars = mxGetN(in_arr)` is the number of columns, `mxGetString` copies the
first `n_chars` characters of the array into the buffer `fcn_name` and
terminates it, and the result is the `std::string` of that buffer. -/
def mxToString : MxArray → Except String String
  | .str s => .ok (cString (s.data.take s.length))
  | .chars rows data => .ok (cString (data.data.take (data.length / rows)))
  | _ => .error "Argument must be string."

/-- The copy loop of `mxToNumericVec`: `k` iterations are left, `i` is the
loop counter, `data` the source from the pointer on, `vec` the target. -/
def mxToNumericVec.loop : Nat → Nat → List Double → List Double → List Double
  | 0, _, _, vec => vec
  | k + 1, i, data, vec => mxToNumericVec.loop k (i + 1) data.tail (vec.set i (data.headD 0))

/-- Conversion `mxToNumericVec`: `mexAssert(mxIsDouble(in_arr) && !mxIsComplex(in_arr), ...)`,
then `nv = (int) mxGetNumberOfElements(in_arr)` and a vector of `nv` elements
filled by the copy loop. For a negative `nv` the constructor of the vector
throws. -/
def mxToNumericVec : MxArray → Conv (List Double)
  | .real data =>
    let nv := sizeToInt data.length
    if nv < 0 then .thrown
    else .ok (mxToNumericVec.loop nv.toNat 0 data (List.replicate nv.toNat 0))
  | _ => .error "Invalid convertion from mx type to vector."

/-- The method dispatcher `processTensor`. `nrhs` is the length of `prhs`;
`mxAssertOn` tells whether `mxAssert` is compiled in (a debug build): the host
macro checks its condition in a debug build only and is empty otherwise. -/
def processTensor {T : Type} (lib : TensorLib T) (mxAssertOn : Bool)
    (st : State T) (nlhs : Nat) (prhs : List MxArray) : Outcome T :=
  match prhs with
  | [] => .error "Not enough input arguments." st
  | p0 :: args =>
    match mxToString p0 with
    | .error msg => .error msg st
    | .ok fcn_name =>
      if fcn_name = "construct" then
        match args with
        | [] => .error "Not enough input arguments." st
        | p1 :: _ =>
          match mxToNumericVec p1 with
          | .error msg => .error msg st
          | .thrown => .undefined
          | .ok value =>
            if mxAssertOn && value.length != 1 then .error "Only scalar values." st
            else
              match value with
              | [] => .undefined
              | v0 :: _ =>
                match store st.tensor_storage st.num_tensors (lib.scalar v0) with
                | none => .undefined
                | some storage1 =>
                  if st.num_tensors < INT_MAX then
                    if 1 ≤ nlhs then
                      .ok ⟨storage1, st.num_tensors + 1⟩
                        [(0, mxCreateDoubleScalar (st.num_tensors : ℚ))]
                    else .error "Output argument for index required"
                      ⟨storage1, st.num_tensors + 1⟩
                  else .undefined
      else if fcn_name = "uplus" then
        match args with
        | [] => .error "Not enough input arguments." st
        | p1 :: _ =>
          match (mxGetScalar p1).bind toInt with
          | none => .undefined
          | some idx =>
            match load st.tensor_storage idx with
            | none => .undefined
            | some tensor =>
              match store st.tensor_storage st.num_tensors (lib.uplus tensor) with
              | none => .undefined
              | some storage1 =>
                if st.num_tensors < INT_MAX then
                  if 1 ≤ nlhs then
                    .ok ⟨storage1, st.num_tensors + 1⟩
                      [(0, mxCreateDoubleScalar (st.num_tensors : ℚ))]
                  else .error "Output argument for index required"
                    ⟨storage1, st.num_tensors + 1⟩
                else .undefined
      else if fcn_name = "full" then
        match args with
        | [] => .error "Not enough input arguments." st
        | p1 :: _ =>
          match (mxGetScalar p1).bind toInt with
          | none => .undefined
          | some idx =>
            match load st.tensor_storage idx with
            | none => .undefined
            | some tensor =>
              if 3 ≤ nlhs then
                match lib.full tensor with
                | [] => .undefined
                | row0 :: rows =>
                  .ok st [(0, mxCreateDoubleScalar ((row0 :: rows).length : ℚ)),
                          (1, mxCreateDoubleScalar (row0.length : ℚ)),
                          (3, lib.hostMatrix (row0 :: rows))]
              else .error "Output argument for index required" st
      else .error "Method not recognized." st

/-- The entry point `mexFunction`: the class tag is read from `prhs[1]`, and
the dispatcher is called with `--nrhs, ++prhs` and the output slots of the caller. -/
def mexFunction {T : Type} (lib : TensorLib T) (mxAssertOn : Bool)
    (st : State T) (nlhs : Nat) (prhs : List MxArray) : Outcome T :=
  match prhs with
  | p0 :: p1 :: rest =>
    match mxToString p1 with
    | .error msg => .error msg st
    | .ok class_name =>
      if class_name = "T" then processTensor lib mxAssertOn st nlhs (List.tail (p0 :: p1 :: rest))
      else .error "Class not recognized." st
  | _ => .error "Not enough input arguments." st

/-- Modelled from the spec: the error taxonomy of the spec (section 7); the
source has one error identifier and tells failures apart by message only. -/
inductive ErrorKind where
  | ArityError
  | TypeError
  | OutOfRangeError
  | UnknownClassError
  | UnknownMethodError
  | NativeLibraryError
  deriving DecidableEq, Repr

/-- Modelled from the spec: the kind of error (section 7) that each message
passed to `mexError` or `mxAssert` in the source stands for. -/
def errorKind (msg : String) : Option ErrorKind :=
  if msg = "Not enough input arguments." then some .ArityError
  else if msg = "Only scalar values." then some .ArityError
  else if msg = "Output argument for index required" then some .ArityError
  else if msg = "Argument must be string." then some .TypeError
  else if msg = "Invalid convertion from mx type to vector." then some .TypeError
  else if msg = "Class not recognized." then some .UnknownClassError
  else if msg = "Method not recognized." then some .UnknownMethodError
  else none

/-- Modelled from the spec: the tensor library is not in `src/`; this is the
library restricted to scalar tensors, as the end-to-end scenarios of the spec
describe it: a scalar tensor holds its value, unary plus preserves it, `full`
gives the 1x1 matrix of the value, and the host value of a matrix is its
flattened data. -/
def scalarLib : TensorLib Double :=
  ⟨fun v => v, fun t => t, fun t => [[t]], fun m => .real m.flatten⟩

/-- A registry state of size `num_tensors`: the counter equals the number of
elements that `tensor_storage` holds. -/
def State.wf {T : Type} (st : State T) : Prop :=
  st.num_tensors = (st.tensor_storage.length : Int)

instance {T : Type} (st : State T) : Decidable st.wf := by
  unfold State.wf; exact inferInstance

/-- One call of the dispatcher: the number of output slots and the arguments. -/
structure Call where
  nlhs : Nat
  prhs : List MxArray
  deriving DecidableEq, Repr

/-- The state a call leaves behind, when the call has a defined outcome. -/
def Outcome.state? {T : Type} : Outcome T → Option (State T)
  | .ok st _ => some st
  | .error _ st => some st
  | .undefined => none

/-- The value a call wrote to output slot `k`, if the call returned. -/
def Outcome.slot {T : Type} (k : Nat) : Outcome T → Option MxArray
  | .ok _ plhs => plhs.lookup k
  | _ => none

/-- A session: the dispatcher is called with each call in turn, on the globals
the previous call left. Gives the final state, or `none` once a call has no
defined outcome. -/
def run {T : Type} (lib : TensorLib T) (mxAssertOn : Bool) : State T → List Call → Option (State T)
  | st, [] => some st
  | st, c :: cs =>
    match (processTensor lib mxAssertOn st c.nlhs c.prhs).state? with
    | some st1 => run lib mxAssertOn st1 cs
    | none => none

/-- The outcomes of the calls of a session, in order; the session ends with
the first call that has no defined outcome. -/
def trace {T : Type} (lib : TensorLib T) (mxAssertOn : Bool) : State T → List Call → List (Outcome T)
  | _, [] => []
  | st, c :: cs =>
    let r := processTensor lib mxAssertOn st c.nlhs c.prhs
    match r.state? with
    | some st1 => r :: trace lib mxAssertOn st1 cs
    | none => [r]

/-- The dispatcher call `construct(value)` with `nlhs` output slots. -/
def constructCall (nlhs : Nat) (value : Double) : Call :=
  ⟨nlhs, [.str "construct", .real [value]]⟩

/-- The dispatcher call `uplus(idx)` with `nlhs` output slots. -/
def uplusCall (nlhs : Nat) (idx : Int) : Call :=
  ⟨nlhs, [.str "uplus", .real [(idx : ℚ)]]⟩

/-- The dispatcher call `full(idx)` with `nlhs` output slots. -/
def fullCall (nlhs : Nat) (idx : Int) : Call :=
  ⟨nlhs, [.str "full", .real [(idx : ℚ)]]⟩

/-! ## Auxiliary facts -/

theorem mxToString_construct : mxToString (.str "construct") = .ok "construct" := by rfl

theorem mxToString_uplus : mxToString (.str "uplus") = .ok "uplus" := by rfl

theorem mxToString_full : mxToString (.str "full") = .ok "full" := by rfl

theorem mxToString_T : mxToString (.str "T") = .ok "T" := by rfl

theorem mxToString_str (s : String) : mxToString (.str s) = .ok (cString s.data) := by
  cases s with
  | mk cs =>
    show Except.ok (cString (cs.take cs.length)) = Except.ok (cString cs)
    rw [List.take_length]

theorem mxToString_error {p : MxArray} {m : String} (h : mxToString p = .error m) :
    m = "Argument must be string." := by
  cases p <;> simp [mxToString] at h <;> exact h.symm

theorem mxToNumericVec_error {p : MxArray} {m : String} (h : mxToNumericVec p = .error m) :
    m = "Invalid convertion from mx type to vector." := by
  cases p with
  | real data =>
    simp only [mxToNumericVec] at h
    split at h <;> simp at h
  | str s => simp [mxToNumericVec] at h; exact h.symm
  | chars rows data => simp [mxToNumericVec] at h; exact h.symm
  | complex re im => simp [mxToNumericVec] at h; exact h.symm
  | fn name => simp [mxToNumericVec] at h; exact h.symm

theorem toInt_intCast (i : Int) :
    toInt (i : ℚ) = if INT_MIN ≤ i ∧ i ≤ INT_MAX then some i else none := by
  simp [toInt]

theorem store_length {T : Type} (ts : Storage T) (t : T) : store ts (ts.length : Int) t = none := by
  simp [store]

theorem store_nil {T : Type} (i : Int) (t : T) : store ([] : Storage T) i t = none := by
  simp only [store, List.length_nil, Nat.cast_zero]
  rw [if_neg (by omega)]

theorem load_nil {T : Type} (i : Int) : load ([] : Storage T) i = none := by
  simp [load]

theorem load_out_of_range {T : Type} (ts : Storage T) (i : Int)
    (hi : i < 0 ∨ (ts.length : Int) ≤ i) : load ts i = none := by
  unfold load
  split
  · rw [List.getElem?_eq_none]; omega
  · rfl

theorem sizeToInt_small (n : Nat) (hn : n < 2147483648) : sizeToInt n = (n : Int) := by
  unfold sizeToInt
  have h : n % 4294967296 = n := Nat.mod_eq_of_lt (by omega)
  rw [h, if_pos hn]

theorem loop_copy (data : List Double) :
    ∀ (i : Nat) (vec : List Double), vec.length = i + data.length →
      mxToNumericVec.loop data.length i data vec = vec.take i ++ data := by
  induction data with
  | nil =>
    intro i vec hlen
    simp only [List.length_nil, Nat.add_zero] at hlen
    simp [mxToNumericVec.loop, List.take_of_length_le (Nat.le_of_eq hlen)]
  | cons d ds ih =>
    intro i vec hlen
    simp only [List.length_cons] at hlen
    simp only [List.length_cons, mxToNumericVec.loop, List.tail_cons, List.headD_cons]
    rw [ih (i + 1) (vec.set i d) (by rw [List.length_set]; omega)]
    rw [List.take_succ, List.getElem?_set_self (by omega), List.set_take,
      List.set_eq_of_length_le (by simp)]
    simp

theorem mxToNumericVec_real (data : List Double) (hlen : data.length < 2147483648) :
    mxToNumericVec (.real data) = .ok data := by
  simp only [mxToNumericVec, sizeToInt_small data.length hlen, Int.toNat_ofNat]
  rw [if_neg (by omega), loop_copy data 0 _ (by simp)]
  simp

theorem mxToNumericVec_singleton (v : Double) : mxToNumericVec (.real [v]) = .ok [v] :=
  mxToNumericVec_real [v] (by simp)

theorem processTensor_construct_scalar {T : Type} (lib : TensorLib T) (mxAssertOn : Bool)
    (st : State T) (nlhs : Nat) (v : Double) (rest : List MxArray) :
    processTensor lib mxAssertOn st nlhs (.str "construct" :: .real [v] :: rest)
      = match store st.tensor_storage st.num_tensors (lib.scalar v) with
        | none => .undefined
        | some storage1 =>
          if st.num_tensors < INT_MAX then
            if 1 ≤ nlhs then
              .ok ⟨storage1, st.num_tensors + 1⟩ [(0, mxCreateDoubleScalar (st.num_tensors : ℚ))]
            else .error "Output argument for index required" ⟨storage1, st.num_tensors + 1⟩
          else .undefined := by
  simp [processTensor, mxToString_construct, mxToNumericVec_singleton]

theorem processTensor_uplus_arg {T : Type} (lib : TensorLib T) (mxAssertOn : Bool)
    (st : State T) (nlhs : Nat) (x : MxArray) (rest : List MxArray) :
    processTensor lib mxAssertOn st nlhs (.str "uplus" :: x :: rest)
      = match (mxGetScalar x).bind toInt with
        | none => .undefined
        | some idx =>
          match load st.tensor_storage idx with
          | none => .undefined
          | some tensor =>
            match store st.tensor_storage st.num_tensors (lib.uplus tensor) with
            | none => .undefined
            | some storage1 =>
              if st.num_tensors < INT_MAX then
                if 1 ≤ nlhs then
                  .ok ⟨storage1, st.num_tensors + 1⟩
                    [(0, mxCreateDoubleScalar (st.num_tensors : ℚ))]
                else .error "Output argument for index required"
                  ⟨storage1, st.num_tensors + 1⟩
              else .undefined := by
  simp [processTensor, mxToString_uplus]

theorem processTensor_full_arg {T : Type} (lib : TensorLib T) (mxAssertOn : Bool)
    (st : State T) (nlhs : Nat) (x : MxArray) (rest : List MxArray) :
    processTensor lib mxAssertOn st nlhs (.str "full" :: x :: rest)
      = match (mxGetScalar x).bind toInt with
        | none => .undefined
        | some idx =>
          match load st.tensor_storage idx with
          | none => .undefined
          | some tensor =>
            if 3 ≤ nlhs then
              match lib.full tensor with
              | [] => .undefined
              | row0 :: rows =>
                .ok st [(0, mxCreateDoubleScalar ((row0 :: rows).length : ℚ)),
                        (1, mxCreateDoubleScalar (row0.length : ℚ)),
                        (3, lib.hostMatrix (row0 :: rows))]
            else .error "Output argument for index required" st := by
  simp [processTensor, mxToString_full]

theorem errorKind_ne_outOfRange (msg : String) : errorKind msg ≠ some .OutOfRangeError := by
  unfold errorKind
  repeat' split
  all_goals simp

/-! ## The claims -/

/-- C1, the code on every registry state whose counter equals the size of
`tensor_storage`, the empty registry first of all: in `construct(value)` with
a one-element real array the assignment `tensor_storage[num_tensors] = tensor`
(line 115) indexes the vector at its size, outside its elements, because no
statement of the file grows the vector. The call returns no handle. -/
theorem construct_store_out_of_bounds {T : Type} (lib : TensorLib T) (mxAssertOn : Bool)
    (nlhs : Nat) (v : Double) (rest : List MxArray) (ts : List T) :
    processTensor lib mxAssertOn ⟨ts, (ts.length : Int)⟩ nlhs
        (.str "construct" :: .real [v] :: rest) = .undefined
      ∧ processTensor lib mxAssertOn State.init nlhs
        (.str "construct" :: .real [v] :: rest) = .undefined
      ∧ processTensor scalarLib false State.init 1 (constructCall 1 2).prhs = .undefined := by
  refine ⟨?_, ?_, by decide⟩
  · rw [processTensor_construct_scalar]
    simp only [store_length]
  · rw [processTensor_construct_scalar]
    simp only [State.init, store_nil]

/-- C2, the code on every registry state whose counter equals the size of
`tensor_storage`: in `uplus(h)`, for every `h`, either the read
`tensor_storage[h]` (line 132) is outside the vector (or `h` is no `int`), or
the assignment `tensor_storage[num_tensors] = new_tensor` (line 135) is
outside it; the call returns no handle. In the session `construct(2)`, `uplus(0)` from the empty registry the
first call already has no defined outcome. -/
theorem uplus_store_out_of_bounds {T : Type} (lib : TensorLib T) (mxAssertOn : Bool)
    (nlhs : Nat) (h : Int) (rest : List MxArray) (ts : List T) :
    processTensor lib mxAssertOn ⟨ts, (ts.length : Int)⟩ nlhs
        (.str "uplus" :: .real [(h : ℚ)] :: rest) = .undefined
      ∧ run scalarLib false State.init [constructCall 1 2, uplusCall 1 0] = none
      ∧ processTensor scalarLib false State.init 1 (uplusCall 1 0).prhs = .undefined := by
  refine ⟨?_, by decide, by decide⟩
  rw [processTensor_uplus_arg]
  simp only [store_length]
  split
  · rfl
  · split <;> rfl

theorem empty_outcome {T : Type} (lib : TensorLib T) (mxAssertOn : Bool) (n : Int)
    (nlhs : Nat) (prhs : List MxArray) :
    processTensor lib mxAssertOn ⟨[], n⟩ nlhs prhs = .undefined
      ∨ ∃ msg : String, processTensor lib mxAssertOn ⟨[], n⟩ nlhs prhs = .error msg ⟨[], n⟩
          ∧ msg ≠ "Output argument for index required" := by
  simp only [processTensor]
  repeat' split
  all_goals first
    | exact Or.inl rfl
    | exact Or.inr ⟨_, rfl, by decide⟩
    | (rename_i hs; have := mxToString_error hs; subst this; exact Or.inr ⟨_, rfl, by decide⟩)
    | (rename_i hs; have := mxToNumericVec_error hs; subst this
       exact Or.inr ⟨_, rfl, by decide⟩)
    | (exfalso; have hl := ‹load [] _ = some _›; simp [load_nil] at hl)
    | (exfalso; have hl := ‹store [] _ _ = some _›; simp [store_nil] at hl)

theorem error_state {T : Type} (lib : TensorLib T) (mxAssertOn : Bool) (st st1 : State T)
    (nlhs : Nat) (prhs : List MxArray) (msg : String)
    (h : processTensor lib mxAssertOn st nlhs prhs = .error msg st1) :
    (st1 = st ∨ msg = "Output argument for index required")
      ∧ msg ≠ "Class not recognized." := by
  simp only [processTensor] at h
  repeat' split at h
  all_goals simp only [Outcome.error.injEq, reduceCtorEq] at h
  all_goals obtain ⟨hmsg, hst⟩ := h
  all_goals first
    | (subst hmsg; exact ⟨Or.inl hst.symm, by decide⟩)
    | (subst hmsg; exact ⟨Or.inr rfl, by decide⟩)
    | (rename_i hs; have := mxToString_error hs; subst this; subst hmsg
       exact ⟨Or.inl hst.symm, by decide⟩)
    | (rename_i hs; have := mxToNumericVec_error hs; subst this; subst hmsg
       exact ⟨Or.inl hst.symm, by decide⟩)

theorem never_slot_two {T : Type} (lib : TensorLib T) (mxAssertOn : Bool) (st : State T)
    (nlhs : Nat) (prhs : List MxArray) :
    (processTensor lib mxAssertOn st nlhs prhs).slot 2 = none := by
  simp only [processTensor]
  repeat' split
  all_goals simp [Outcome.slot, List.lookup]

theorem run_init {T : Type} (lib : TensorLib T) (mxAssertOn : Bool) (calls : List Call) :
    run lib mxAssertOn State.init calls = none
      ∨ run lib mxAssertOn State.init calls = some State.init := by
  induction calls with
  | nil => exact Or.inr rfl
  | cons c cs ih =>
    rcases empty_outcome lib mxAssertOn 0 c.nlhs c.prhs with h | ⟨msg, h, _⟩
    · left
      simp only [run, State.init, h, Outcome.state?]
    · simp only [run, State.init, h, Outcome.state?]
      exact ih

/-- C3, the code at the session `construct(2)` from the empty registry: the
call has no defined outcome (its store at line 115 is outside the never-sized
vector), so no registry state follows it. More generally a session from the
empty registry either meets a call without defined outcome or leaves both
globals at their initial values, and no dispatcher call on the empty registry
ever returns, so no handle is ever handed out. -/
theorem session_from_empty_registry {T : Type} (lib : TensorLib T) (mxAssertOn : Bool) :
    run scalarLib false State.init [constructCall 1 2] = none
      ∧ (∀ calls : List Call,
          run lib mxAssertOn State.init calls = none
            ∨ run lib mxAssertOn State.init calls = some State.init)
      ∧ ∀ (nlhs : Nat) (prhs : List MxArray) (st1 : State T) (out : Outputs),
          processTensor lib mxAssertOn State.init nlhs prhs ≠ .ok st1 out := by
  refine ⟨by decide, run_init lib mxAssertOn, fun nlhs prhs st1 out hok => ?_⟩
  rcases empty_outcome lib mxAssertOn 0 nlhs prhs with h | ⟨msg, h, _⟩
  · rw [State.init, h] at hok
    exact Outcome.noConfusion hok
  · rw [State.init, h] at hok
    exact Outcome.noConfusion hok

/-- C4, as the claim states it, at `full(5)` on the empty registry: the call
does not abort with an `OutOfRangeError`; the read `tensor_storage[5]` is
unchecked and its outcome is undefined. -/
theorem full_out_of_range_counterexample :
    processTensor scalarLib false State.init 3 (fullCall 3 5).prhs = .undefined
      ∧ ¬ ∃ msg : String,
          processTensor scalarLib false State.init 3 (fullCall 3 5).prhs
              = .error msg State.init
            ∧ errorKind msg = some .OutOfRangeError := by
  have h : processTensor scalarLib false State.init 3 (fullCall 3 5).prhs = .undefined := by
    decide
  refine ⟨h, ?_⟩
  rintro ⟨msg, hm, _⟩
  rw [h] at hm
  exact Outcome.noConfusion hm

/-- C4, amended. In a registry state of size `n`, for an integer `idx` with
`idx < 0` or `idx >= n`, the dispatcher calls `uplus(idx)` and `full(idx)`
read `tensor_storage[idx]` without a bounds check, before any output is
written or the registry is changed: no error is raised, the outcome of the
call is undefined, and no message of the program is an `OutOfRangeError`. -/
theorem out_of_range_unchecked {T : Type} (lib : TensorLib T) (mxAssertOn : Bool)
    (st : State T) (nlhs : Nat) (idx : Int) (rest : List MxArray)
    (hwf : st.wf) (hidx : idx < 0 ∨ st.num_tensors ≤ idx) :
    processTensor lib mxAssertOn st nlhs (.str "uplus" :: .real [(idx : ℚ)] :: rest) = .undefined
      ∧ processTensor lib mxAssertOn st nlhs (.str "full" :: .real [(idx : ℚ)] :: rest)
          = .undefined
      ∧ ∀ msg : String, errorKind msg ≠ some .OutOfRangeError := by
  have hl : load st.tensor_storage idx = none :=
    load_out_of_range st.tensor_storage idx (by rw [State.wf] at hwf; omega)
  refine ⟨?_, ?_, errorKind_ne_outOfRange⟩
  · rw [processTensor_uplus_arg]
    simp only [mxGetScalar, Option.some_bind, toInt_intCast]
    split
    · rfl
    · rename_i i hi
      split at hi
      · simp only [Option.some.injEq] at hi
        subst hi
        simp only [hl]
      · exact absurd hi (by simp)
  · rw [processTensor_full_arg]
    simp only [mxGetScalar, Option.some_bind, toInt_intCast]
    split
    · rfl
    · rename_i i hi
      split at hi
      · simp only [Option.some.injEq] at hi
        subst hi
        simp only [hl]
      · exact absurd hi (by simp)

theorem out_of_range_unchecked_witness :
    ((State.init : State Double).wf ∧ ((5 : Int) < 0 ∨ (State.init : State Double).num_tensors ≤ 5)) ∧
    (processTensor scalarLib false State.init 3 [.str "uplus", .real [((5 : Int) : ℚ)]] = .undefined
      ∧ processTensor scalarLib false State.init 3 [.str "full", .real [((5 : Int) : ℚ)]]
          = .undefined
      ∧ ∀ msg : String, errorKind msg ≠ some .OutOfRangeError) :=
  ⟨by decide, out_of_range_unchecked scalarLib false State.init 3 5 [] (by decide) (by decide)⟩

theorem mexFunction_tensor {T : Type} (lib : TensorLib T) (mxAssertOn : Bool) (st : State T)
    (nlhs : Nat) (p0 : MxArray) (rest : List MxArray) :
    mexFunction lib mxAssertOn st nlhs (p0 :: .str "T" :: rest)
      = processTensor lib mxAssertOn st nlhs (.str "T" :: rest) := by
  simp [mexFunction, mxToString_T]

/-- C6, the code at the entry-point call `("ocl", "T", "construct", 2)` with
one output slot: `++prhs` drops the argument at index 0 only, so the
dispatcher compares the class tag `"T"` with the method names and aborts; the
dispatcher called with the list that has the class tag removed takes the
`construct` branch instead and goes on to the store of line 115. -/
theorem mexFunction_keeps_class_tag :
    mexFunction scalarLib false State.init 1
        [.str "ocl", .str "T", .str "construct", .real [2]]
      = .error "Method not recognized." State.init
    ∧ processTensor scalarLib false State.init 1 [.str "construct", .real [2]]
      = .undefined := by
  decide

/-- C7, the code for every state and every call: the dispatcher never writes
output slot 2, and whenever its `full` branch returns it has written slot 3
(line 159 assigns `plhs[3]`). In the session `construct(2)`, `full(0)` with 3
output slots from the empty registry no call returns at all: the store of
line 115 and the read of line 151 are outside the never-sized vector. -/
theorem dispatcher_never_writes_slot_two {T : Type} (lib : TensorLib T) (mxAssertOn : Bool)
    (st : State T) (nlhs : Nat) (prhs : List MxArray) :
    (processTensor lib mxAssertOn st nlhs prhs).slot 2 = none
      ∧ (∀ (x : MxArray) (rest : List MxArray),
          processTensor lib mxAssertOn st nlhs (.str "full" :: x :: rest) = .undefined
            ∨ (∃ msg : String,
                processTensor lib mxAssertOn st nlhs (.str "full" :: x :: rest) = .error msg st)
            ∨ ∃ a b c : MxArray,
                processTensor lib mxAssertOn st nlhs (.str "full" :: x :: rest)
                  = .ok st [(0, a), (1, b), (3, c)])
      ∧ trace scalarLib false State.init [constructCall 1 2, fullCall 3 0] = [.undefined]
      ∧ processTensor scalarLib false State.init 3 (fullCall 3 0).prhs = .undefined := by
  refine ⟨never_slot_two lib mxAssertOn st nlhs prhs, fun x rest => ?_, by decide, by decide⟩
  rw [processTensor_full_arg]
  repeat' split
  all_goals first
    | exact Or.inl rfl
    | exact Or.inr (Or.inl ⟨_, rfl⟩)
    | exact Or.inr (Or.inr ⟨_, _, _, rfl⟩)

/-- C8, the code at the session of the claim, `construct(2)`, `full(0)`,
`full(0)` from the empty registry: the session ends at the first call, whose
store (line 115) is outside the never-sized vector, and `full(0)` on the empty
registry reads outside the vector (line 151); no row count, column count or
data is returned. What does hold of `full` in every state: a call that has a
defined outcome leaves the registry contents and the counter unchanged. -/
theorem full_session_undefined {T : Type} (lib : TensorLib T) (mxAssertOn : Bool)
    (st : State T) (nlhs : Nat) (x : MxArray) (rest : List MxArray) :
    trace scalarLib false State.init [constructCall 1 2, fullCall 3 0, fullCall 3 0]
        = [.undefined]
      ∧ processTensor scalarLib false State.init 3 (fullCall 3 0).prhs = .undefined
      ∧ ((processTensor lib mxAssertOn st nlhs (.str "full" :: x :: rest)).state? = none
          ∨ (processTensor lib mxAssertOn st nlhs (.str "full" :: x :: rest)).state? = some st) := by
  refine ⟨by decide, by decide, ?_⟩
  rw [processTensor_full_arg]
  repeat' split
  all_goals first
    | exact Or.inl rfl
    | exact Or.inr rfl

/-- C9, the code at `construct([v, w])`: with `mxAssert` compiled out the
scalar check of line 111 is skipped and the call does exactly what
`construct([v])` does, using the first element; only with `mxAssert` compiled
in is it aborted with "Only scalar values.". On the empty registry
`construct([1, 2])` is therefore not aborted with an error; it goes on to the
store of line 115. -/
theorem construct_skips_scalar_check {T : Type} (lib : TensorLib T) (st : State T)
    (nlhs : Nat) (v w : Double) (rest : List MxArray) :
    processTensor lib false st nlhs (.str "construct" :: .real [v, w] :: rest)
        = processTensor lib false st nlhs (.str "construct" :: .real [v] :: rest)
      ∧ processTensor lib true st nlhs (.str "construct" :: .real [v, w] :: rest)
        = .error "Only scalar values." st
      ∧ processTensor scalarLib false State.init 1 [.str "construct", .real [1, 2]]
        = .undefined
      ∧ processTensor scalarLib true State.init 1 [.str "construct", .real [1, 2]]
        = .error "Only scalar values." State.init := by
  have h2 : mxToNumericVec (.real [v, w]) = .ok [v, w] := mxToNumericVec_real [v, w] (by simp)
  refine ⟨?_, ?_, by decide, by decide⟩
  · simp [processTensor, mxToString_construct, mxToNumericVec_singleton, h2]
  · simp [processTensor, mxToString_construct, h2]

/-- C10, as the claim states it, at the first argument `"uplus\0x"`: the
string is none of the three method names, yet `mxToString` builds the name
from a C buffer, which ends at the NUL, and the call is dispatched as `uplus`
(here it is aborted for its missing argument, not as an unknown method). -/
theorem unknown_method_counterexample :
    ("uplus\x00x" ≠ "construct" ∧ "uplus\x00x" ≠ "uplus" ∧ "uplus\x00x" ≠ "full")
      ∧ processTensor scalarLib false State.init 1 [.str "uplus\x00x"]
          = .error "Not enough input arguments." State.init
      ∧ processTensor scalarLib false State.init 1 [.str "uplus\x00x"]
          ≠ .error "Method not recognized." State.init := by
  decide

/-- C10, amended. A dispatcher call whose first argument is a string whose
characters before the first NUL are not exactly (case included) `"construct"`,
`"uplus"` or `"full"` aborts with "Method not recognized.", an
`UnknownMethodError`, whatever the remaining arguments and output slots are;
no output is written and the registry is unchanged. -/
theorem unknown_method {T : Type} (lib : TensorLib T) (mxAssertOn : Bool)
    (st : State T) (nlhs : Nat) (name : String) (rest : List MxArray)
    (hc : cString name.data ≠ "construct") (hu : cString name.data ≠ "uplus")
    (hf : cString name.data ≠ "full") :
    processTensor lib mxAssertOn st nlhs (.str name :: rest)
        = .error "Method not recognized." st
      ∧ errorKind "Method not recognized." = some .UnknownMethodError := by
  refine ⟨?_, by decide⟩
  simp [processTensor, mxToString_str, hc, hu, hf]

theorem unknown_method_witness :
    (cString "Construct".data ≠ "construct" ∧ cString "Construct".data ≠ "uplus"
      ∧ cString "Construct".data ≠ "full"
      ∧ processTensor scalarLib false State.init 3 [.str "full ", .real [0]]
          = .error "Method not recognized." State.init
      ∧ processTensor scalarLib false State.init 3 [.str ""]
          = .error "Method not recognized." State.init) ∧
    (processTensor scalarLib false State.init 1 (.str "Construct" :: [.real [2]])
        = .error "Method not recognized." State.init
      ∧ errorKind "Method not recognized." = some .UnknownMethodError) :=
  ⟨by decide, unknown_method scalarLib false State.init 1 "Construct" [.real [2]] (by decide)
    (by decide) (by decide)⟩

/-- C11, as the claim states it, at the class tag `"T\0x"`: the string differs
from `"T"`, yet `mxToString` reads it from a C buffer as `"T"`, the class
check passes and the dispatcher is reached; the call is aborted there with
"Method not recognized.", not with "Class not recognized.". -/
theorem unknown_class_counterexample :
    "T\x00x" ≠ "T"
      ∧ mexFunction scalarLib false State.init 1
          [.str "ocl", .str "T\x00x", .str "construct", .real [2]]
        = .error "Method not recognized." State.init
      ∧ errorKind "Method not recognized." ≠ some .UnknownClassError := by
  decide

/-- C11, amended. An entry-point call with at least 2 arguments whose argument
at index 1 is a string whose characters before the first NUL are not exactly
the tensor class tag `"T"` aborts with "Class not recognized.", an
`UnknownClassError`, whatever the other arguments and the output slots are;
the registry is unchanged, and the abort is not one of the dispatcher, which
never raises that message. -/
theorem unknown_class {T : Type} (lib : TensorLib T) (mxAssertOn : Bool)
    (st : State T) (nlhs : Nat) (p0 : MxArray) (tag : String) (rest : List MxArray)
    (htag : cString tag.data ≠ "T") :
    mexFunction lib mxAssertOn st nlhs (p0 :: .str tag :: rest)
        = .error "Class not recognized." st
      ∧ errorKind "Class not recognized." = some .UnknownClassError
      ∧ ∀ (s s1 : State T) (n : Nat) (args : List MxArray),
          processTensor lib mxAssertOn s n args ≠ .error "Class not recognized." s1 := by
  refine ⟨?_, by decide, fun s s1 n args h => ?_⟩
  · simp [mexFunction, mxToString_str, htag]
  · exact (error_state lib mxAssertOn s s1 n args _ h).2 rfl

theorem unknown_class_witness :
    cString "tensor".data ≠ "T" ∧
    (mexFunction scalarLib false State.init 1
          (.str "ocl" :: .str "tensor" :: [.str "construct", .real [2]])
        = .error "Class not recognized." State.init
      ∧ errorKind "Class not recognized." = some .UnknownClassError
      ∧ ∀ (s s1 : State Double) (n : Nat) (args : List MxArray),
          processTensor scalarLib false s n args ≠ .error "Class not recognized." s1) :=
  ⟨by decide, unknown_class scalarLib false State.init 1 (.str "ocl") "tensor"
    [.str "construct", .real [2]] (by decide)⟩

/-- C12, as the claim states it, at a real double array of `2^31` elements:
`nv = (int) mxGetNumberOfElements(in_arr)` is negative, the vector of `nv`
elements cannot be built, and no vector of length `2^31` is returned. -/
theorem mxToNumericVec_counterexample :
    mxToNumericVec (.real (List.replicate 2147483648 0)) = .thrown
      ∧ mxToNumericVec (.real (List.replicate 2147483648 0))
          ≠ .ok (List.replicate 2147483648 0) := by
  have h : mxToNumericVec (.real (List.replicate 2147483648 0)) = .thrown := by
    simp only [mxToNumericVec]
    rw [List.length_replicate, if_pos (by decide)]
  refine ⟨h, ?_⟩
  rw [h]
  exact fun hc => Conv.noConfusion hc

/-- C12, amended. `mxToNumericVec` aborts with a `TypeError` exactly when its
argument is not a real double array; for a real double array of `k < 2^31`
elements it returns a vector of length `k` whose `i`-th element is the `i`-th
element of the array, for every `i < k`. -/
theorem mxToNumericVec_spec (p : MxArray) (data : List Double)
    (hlen : data.length < 2147483648) :
    ((∃ msg : String, mxToNumericVec p = .error msg ∧ errorKind msg = some .TypeError)
        ↔ ¬ ∃ d : List Double, p = .real d)
      ∧ ∃ vec : List Double,
          mxToNumericVec (.real data) = .ok vec ∧ vec.length = data.length
            ∧ ∀ i : Nat, i < data.length → vec[i]? = data[i]? := by
  refine ⟨?_, data, mxToNumericVec_real data hlen, rfl, fun _ _ => rfl⟩
  cases p with
  | real d =>
    constructor
    · rintro ⟨msg, hm, _⟩
      simp only [mxToNumericVec] at hm
      split at hm <;> exact Conv.noConfusion hm
    · intro hn
      exact absurd ⟨d, rfl⟩ hn
  | str s => simp [mxToNumericVec]; decide
  | chars rows d => simp [mxToNumericVec]; decide
  | complex re im => simp [mxToNumericVec]; decide
  | fn name => simp [mxToNumericVec]; decide

theorem mxToNumericVec_spec_witness :
    [(1 : Double), 2, 3].length < 2147483648 ∧
    (((∃ msg : String, mxToNumericVec (.complex [1] [1]) = .error msg
          ∧ errorKind msg = some .TypeError)
        ↔ ¬ ∃ d : List Double, MxArray.complex [1] [1] = .real d)
      ∧ ∃ vec : List Double,
          mxToNumericVec (.real [1, 2, 3]) = .ok vec ∧ vec.length = [(1 : Double), 2, 3].length
            ∧ ∀ i : Nat, i < [(1 : Double), 2, 3].length → vec[i]? = [(1 : Double), 2, 3][i]?) :=
  ⟨by decide, mxToNumericVec_spec (.complex [1] [1]) [1, 2, 3] (by decide)⟩

/-- C13. For each of the method names `construct`, `uplus` and `full`, the
dispatcher call that supplies the method name and no further argument aborts
with "Not enough input arguments.", an `ArityError`, in every registry state
and for every tensor library and number of output slots: the check comes
before any conversion, lookup or library call; no output is written and the
registry is unchanged. -/
theorem missing_argument {T : Type} (lib : TensorLib T) (mxAssertOn : Bool)
    (st : State T) (nlhs : Nat) :
    processTensor lib mxAssertOn st nlhs [.str "construct"]
        = .error "Not enough input arguments." st
      ∧ processTensor lib mxAssertOn st nlhs [.str "uplus"]
        = .error "Not enough input arguments." st
      ∧ processTensor lib mxAssertOn st nlhs [.str "full"]
        = .error "Not enough input arguments." st
      ∧ errorKind "Not enough input arguments." = some .ArityError := by
  refine ⟨?_, ?_, ?_, by decide⟩
  · simp [processTensor, mxToString_construct]
  · simp [processTensor, mxToString_uplus]
  · simp [processTensor, mxToString_full]

theorem bind_real_singleton (d : Double) : (mxGetScalar (.real [d])).bind toInt = toInt d := rfl

/-- C14, as the claim states it, on the empty registry: `uplus` with a complex
array and `full` with a real array of two elements are not aborted with an
error. The real part of the first element is taken as the handle, exactly as
for the real scalar 0, and the call goes on to read `tensor_storage[0]`. -/
theorem handle_coerced_counterexample :
    processTensor scalarLib false State.init 1 [.str "uplus", .complex [0, 3] [1, 1]]
        = processTensor scalarLib false State.init 1 [.str "uplus", .real [0]]
      ∧ processTensor scalarLib false State.init 3 [.str "full", .real [0, 7]]
        = processTensor scalarLib false State.init 3 [.str "full", .real [0]]
      ∧ (¬ ∃ (msg : String) (st1 : State Double),
          processTensor scalarLib false State.init 1 [.str "uplus", .complex [0, 3] [1, 1]]
            = .error msg st1)
      ∧ ¬ ∃ (msg : String) (st1 : State Double),
          processTensor scalarLib false State.init 3 [.str "full", .real [0, 7]]
            = .error msg st1 := by
  have h1 : processTensor scalarLib false State.init 1 [.str "uplus", .complex [0, 3] [1, 1]]
      = .undefined := by decide
  have h2 : processTensor scalarLib false State.init 3 [.str "full", .real [0, 7]]
      = .undefined := by decide
  refine ⟨by decide, by decide, ?_, ?_⟩
  · rintro ⟨msg, st1, hm⟩
    rw [h1] at hm
    exact Outcome.noConfusion hm
  · rintro ⟨msg, st1, hm⟩
    rw [h2] at hm
    exact Outcome.noConfusion hm

/-- C14, amended. The dispatcher calls `uplus(x)` and `full(x)` read the handle
as `(int)mxGetScalar(x)`, without a type or length check. Whenever
`mxGetScalar` has a value `d` for `x`, each call does exactly what it does for
the real scalar `d`, and the only abort it can end in is the one for missing
output slots; when `mxGetScalar` has no value for the argument, the outcome is
undefined. No error is raised for the type or the length of `x`. -/
theorem handle_read_unchecked {T : Type} (lib : TensorLib T) (mxAssertOn : Bool)
    (st : State T) (nlhs : Nat) (x : MxArray) (d : Double) (rest : List MxArray)
    (hd : mxGetScalar x = some d) :
    processTensor lib mxAssertOn st nlhs (.str "uplus" :: x :: rest)
        = processTensor lib mxAssertOn st nlhs (.str "uplus" :: .real [d] :: rest)
      ∧ processTensor lib mxAssertOn st nlhs (.str "full" :: x :: rest)
        = processTensor lib mxAssertOn st nlhs (.str "full" :: .real [d] :: rest)
      ∧ (∀ (msg : String) (st1 : State T),
          (processTensor lib mxAssertOn st nlhs (.str "uplus" :: x :: rest) = .error msg st1
            ∨ processTensor lib mxAssertOn st nlhs (.str "full" :: x :: rest) = .error msg st1)
          → msg = "Output argument for index required")
      ∧ ∀ y : MxArray, mxGetScalar y = none →
          processTensor lib mxAssertOn st nlhs (.str "uplus" :: y :: rest) = .undefined
            ∧ processTensor lib mxAssertOn st nlhs (.str "full" :: y :: rest) = .undefined := by
  refine ⟨?_, ?_, ?_, fun y hy => ⟨?_, ?_⟩⟩
  · rw [processTensor_uplus_arg, processTensor_uplus_arg, bind_real_singleton, hd]
    rfl
  · rw [processTensor_full_arg, processTensor_full_arg, bind_real_singleton, hd]
    rfl
  · rintro msg st1 (h | h)
    · rw [processTensor_uplus_arg] at h
      repeat' split at h
      all_goals simp only [Outcome.error.injEq, reduceCtorEq] at h
      exact h.1.symm
    · rw [processTensor_full_arg] at h
      repeat' split at h
      all_goals simp only [Outcome.error.injEq, reduceCtorEq] at h
      exact h.1.symm
  · rw [processTensor_uplus_arg, hy]
    rfl
  · rw [processTensor_full_arg, hy]
    rfl

theorem handle_read_unchecked_witness :
    mxGetScalar (.complex [0, 3] [1, 1]) = some 0 ∧
    (processTensor scalarLib false State.init 1 (.str "uplus" :: .complex [0, 3] [1, 1] :: [])
        = processTensor scalarLib false State.init 1 (.str "uplus" :: .real [0] :: [])
      ∧ processTensor scalarLib false State.init 1 (.str "full" :: .complex [0, 3] [1, 1] :: [])
        = processTensor scalarLib false State.init 1 (.str "full" :: .real [0] :: [])
      ∧ (∀ (msg : String) (st1 : State Double),
          (processTensor scalarLib false State.init 1
                (.str "uplus" :: .complex [0, 3] [1, 1] :: []) = .error msg st1
            ∨ processTensor scalarLib false State.init 1
                (.str "full" :: .complex [0, 3] [1, 1] :: []) = .error msg st1)
          → msg = "Output argument for index required")
      ∧ ∀ y : MxArray, mxGetScalar y = none →
          processTensor scalarLib false State.init 1 (.str "uplus" :: y :: []) = .undefined
            ∧ processTensor scalarLib false State.init 1 (.str "full" :: y :: []) = .undefined) :=
  ⟨by decide, handle_read_unchecked scalarLib false State.init 1 (.complex [0, 3] [1, 1]) 0 []
    (by decide)⟩

theorem processTensor_class_tag {T : Type} (lib : TensorLib T) (mxAssertOn : Bool)
    (st : State T) (nlhs : Nat) (p : MxArray) (rest : List MxArray)
    (hp : mxToString p = .ok "T") :
    processTensor lib mxAssertOn st nlhs (p :: rest) = .error "Method not recognized." st := by
  simp [processTensor, hp]

/-- C15. The entry point drops the argument at index 0 only, so on a call that
passes the class check the dispatcher receives the class tag `"T"` as its
first argument and ends in its unknown-method branch. Hence every call of
`mexFunction`, whatever the arguments and output slots, aborts with an error
and leaves the registry contents and the counter as they were. -/
theorem entry_point_always_aborts {T : Type} (lib : TensorLib T) (mxAssertOn : Bool)
    (st : State T) (nlhs : Nat) :
    (∀ (p0 : MxArray) (rest : List MxArray),
        mexFunction lib mxAssertOn st nlhs (p0 :: .str "T" :: rest)
            = processTensor lib mxAssertOn st nlhs (.str "T" :: rest)
          ∧ processTensor lib mxAssertOn st nlhs (.str "T" :: rest)
            = .error "Method not recognized." st)
      ∧ ∀ prhs : List MxArray, ∃ msg : String,
          mexFunction lib mxAssertOn st nlhs prhs = .error msg st := by
  refine ⟨fun p0 rest => ⟨mexFunction_tensor lib mxAssertOn st nlhs p0 rest,
    processTensor_class_tag lib mxAssertOn st nlhs _ rest mxToString_T⟩, ?_⟩
  intro prhs
  match prhs with
  | [] => exact ⟨_, rfl⟩
  | [_] => exact ⟨_, rfl⟩
  | p0 :: p1 :: rest =>
    cases hp : mxToString p1 with
    | error m => exact ⟨m, by simp [mexFunction, hp]⟩
    | ok name =>
      by_cases hname : name = "T"
      · subst hname
        refine ⟨"Method not recognized.", ?_⟩
        simp only [mexFunction, hp, if_true, List.tail_cons]
        exact processTensor_class_tag lib mxAssertOn st nlhs p1 rest hp
      · exact ⟨"Class not recognized.", by simp [mexFunction, hp, hname]⟩

end OclMex
